import Mathlib

/-!
Shallow embedding of the race-dashboard filter-recompute pipeline
(`update_graphs` in `app.py`) and proofs of its specification claims.

Numeric columns (`distance`, `elevation_gain`, `aid_stations`) are modelled
as rationals. The pandas `sort_values(by='elevation_gain', ascending=False)`
call is modelled from the pandas implementation: an ascending argsort of the
column followed by a reversal of the resulting order (see `sorted_desc`);
this is exact on small inputs. Dash's `no_update` sentinel for
an output slot is modelled by wrapping the slot's value type in `Option`:
`none` means "no override", `some v` means "override the control to `v`".
`clickData` is modelled by the race name carried by its first point
(`clickData['points'][0]['x']`): a real Dash click payload always has a
non-empty `points` list, so `Option String` captures presence/absence.
-/

/-- A race record: one row of the dataset after load-time cleaning. -/
structure Record where
  race : String
  distance : Rat
  elevation_gain : Rat
  country : String
  aid_stations : Rat
deriving DecidableEq

/-- Which Dash input fired the callback (`ctx.triggered[0]['prop_id']`). -/
inductive Trigger where
  | distanceFilter
  | countryFilter
  | resetButton
  | barElevation
deriving DecidableEq

/-- An annotation on the bar chart: categorical x (race name), numeric y, text. -/
structure BarAnn where
  x : String
  y : Rat
  text : String
deriving DecidableEq

/-- The bar-chart description: one (race, elevation_gain) bar per top record,
plus the chart's annotations. -/
structure BarChart where
  bars : List (String × Rat)
  anns : List BarAnn
deriving DecidableEq

/-- An annotation on the scatter chart at numeric (x, y) coordinates. -/
structure ScatterAnn where
  x : Rat
  y : Rat
  text : String
deriving DecidableEq

/-- One scatter point as encoded by `px.scatter`: x = distance,
y = elevation_gain, size = aid_stations, color = elevation_gain,
hover shows race and country. -/
structure ScatterPoint where
  x : Rat
  y : Rat
  size : Rat
  color : Rat
  hover : String
  hoverCountry : String
deriving DecidableEq

/-- The highlight state set by `fig2.update_traces(selectedpoints=..., ...)`:
the indices of the selected points. The selected/unselected marker styles are
fixed constants of the code (see `selectedMarker`, `unselectedMarker`). -/
structure Highlight where
  selectedpoints : List Nat
deriving DecidableEq

/-- The scatter-chart description. -/
structure ScatterChart where
  points : List ScatterPoint
  highlight : Option Highlight
  anns : List ScatterAnn
deriving DecidableEq

/-- The marker style a scatter point is rendered with. -/
structure MarkerStyle where
  size : Option Rat
  color : Option String
  opacity : Rat
deriving DecidableEq

/-- Style of a selected point: `dict(marker=dict(size=20, color='yellow', opacity=1))`. -/
def selectedMarker : MarkerStyle := ⟨some 20, some "yellow", 1⟩

/-- Style of an unselected point: `dict(marker=dict(opacity=0.2))`. -/
def unselectedMarker : MarkerStyle := ⟨none, none, 1/5⟩

/-- Style of a point when no highlight is active: full opacity, default size/color. -/
def uniformMarker : MarkerStyle := ⟨none, none, 1⟩

/-- Plotly's rendering rule for `selectedpoints`: with no highlight every point
is uniform; with a highlight, point `i` gets the selected style iff its index
is in `selectedpoints`, the dimmed unselected style otherwise. -/
def renderStyle (fig : ScatterChart) (i : Nat) : MarkerStyle :=
  match fig.highlight with
  | none => uniformMarker
  | some h => if i ∈ h.selectedpoints then selectedMarker else unselectedMarker

/-- The callback's return value: the two figures and the two control-value
outputs (`none` = Dash `no_update`). -/
structure Result where
  fig1 : BarChart
  fig2 : ScatterChart
  reset_country_value : Option (Option String)
  reset_distance_value : Option (Rat × Rat)
deriving DecidableEq

/-- Embeds `df['distance'].min()`: minimum of the distance column
(0 as the degenerate value on an empty dataset, where pandas yields NaN). -/
def minDistance (ds : List Record) : Rat :=
  match ds.map (fun r => r.distance) with
  | [] => 0
  | x :: xs => xs.foldr min x

/-- Embeds `df['distance'].max()`. -/
def maxDistance (ds : List Record) : Rat :=
  match ds.map (fun r => r.distance) with
  | [] => 0
  | x :: xs => xs.foldr max x

/-- Embeds `df[df['distance'].between(lo, hi)]` followed by the conditional
country filter `if selected_country: filtered_df[filtered_df['country'] == selected_country]`.
`between` is inclusive on both ends; Python truthiness makes `None` and the
empty string both skip the country filter. -/
def filtered_df (ds : List Record) (dr : Rat × Rat) (sc : Option String) : List Record :=
  let byDist := ds.filter (fun r => decide (dr.1 ≤ r.distance) && decide (r.distance ≤ dr.2))
  match sc with
  | some c => if c ≠ "" then byDist.filter (fun r => r.country == c) else byDist
  | none => byDist

/-- Descending order on elevation gain: `elevGE a b` holds when `a`'s gain is
at least `b`'s, so a `Pairwise elevGE` list is sorted descending. -/
def elevGE (a b : Record) : Prop := b.elevation_gain ≤ a.elevation_gain

/-- Ascending order on elevation gain: the comparison the argsort sorts by. -/
def elevLE (a b : Record) : Prop := a.elevation_gain ≤ b.elevation_gain

instance : DecidableRel elevLE := fun a b =>
  inferInstanceAs (Decidable (a.elevation_gain ≤ b.elevation_gain))

instance : IsTotal Record elevLE :=
  ⟨fun a b => le_total a.elevation_gain b.elevation_gain⟩

instance : IsTrans Record elevLE :=
  ⟨fun _ _ _ hab hbc => le_trans hab hbc⟩

/-- Embeds `filtered_df.sort_values(by='elevation_gain', ascending=False)`.
Modelled from the pandas implementation: for a single column with
`ascending=False`, `sort_values` computes an ascending argsort of the column
and reverses the resulting indexer (`nargsort`: `indexer = indexer[::-1]`).
The ascending argsort is modelled as the stable ascending sort, which is what
numpy's default sort produces on small arrays (its insertion-sort regime);
its tie order on larger arrays is implementation-defined. The reversal is
pandas code and applies to ties as well: records with equal elevation gain
come out in reverse dataset order, not in dataset order. -/
def sorted_desc (fdf : List Record) : List Record :=
  (List.insertionSort elevLE fdf).reverse

/-- Embeds `filtered_df.sort_values(by='elevation_gain', ascending=False).head(10)`. -/
def top_elevation (fdf : List Record) : List Record :=
  (sorted_desc fdf).take 10

/-- Embeds the construction of `fig1` (`px.bar` plus the conditional
`add_annotation` on the highest bar: x = its race, y = its elevation times 1.1). -/
def mkFig1 (top : List Record) : BarChart :=
  ⟨top.map (fun r => (r.race, r.elevation_gain)),
   match top with
   | [] => []
   | highest :: _ => [⟨highest.race, highest.elevation_gain * (11/10), "⬆️ Highest Elevation"⟩]⟩

/-- Embeds `[i for i, race in enumerate(filtered_df['race']) if race == clicked_race]`. -/
def selIdx (fdf : List Record) (clicked_race : String) : List Nat :=
  (((fdf.map (fun r => r.race)).enum).filter (fun p => p.2 == clicked_race)).map (fun p => p.1)

/-- Embeds the highlight branch guard
`if clickData and 'points' in clickData and triggered_id != 'reset-button':`. -/
def mkHighlight (fdf : List Record) (cd : Option String) (t : Option Trigger) : Option Highlight :=
  match cd with
  | some clicked_race =>
      if t ≠ some Trigger.resetButton then some ⟨selIdx fdf clicked_race⟩ else none
  | none => none

/-- Embeds the construction of `fig2` (`px.scatter` over the filtered records,
the optional click highlight, and the conditional outlier annotation at the
first outlier's coordinates). -/
def mkFig2 (fdf : List Record) (hl : Option Highlight) (outlier : List Record) : ScatterChart :=
  ⟨fdf.map (fun r => ⟨r.distance, r.elevation_gain, r.aid_stations, r.elevation_gain,
      r.race, r.country⟩),
   hl,
   match outlier with
   | [] => []
   | o :: _ => [⟨o.distance, o.elevation_gain, "Extreme Gain!"⟩]⟩

/-- The distance range the pipeline actually filters with: the reset branch
overrides it to the full dataset span. -/
def effectiveRange (ds : List Record) (dr : Rat × Rat) (t : Option Trigger) : Rat × Rat :=
  if t = some Trigger.resetButton then (minDistance ds, maxDistance ds) else dr

/-- The country the pipeline actually filters with: cleared by the reset branch. -/
def effectiveCountry (sc : Option String) (t : Option Trigger) : Option String :=
  if t = some Trigger.resetButton then none else sc

/-- The click payload the pipeline actually uses: cleared by the reset branch. -/
def effectiveClick (cd : Option String) (t : Option Trigger) : Option String :=
  if t = some Trigger.resetButton then none else cd

/-- Embeds the body of the Dash callback `update_graphs(distance_range,
selected_country, reset_clicks, clickData)`; `triggered_id` is the callback
context's trigger. `reset_clicks` is an input of the callback but is never
read by its body. -/
def update_graphs (ds : List Record) (distance_range : Rat × Rat)
    (selected_country : Option String) ( _reset_clicks : Nat)
    (clickData : Option String) (triggered_id : Option Trigger) : Result :=
  let dr := effectiveRange ds distance_range triggered_id
  let sc := effectiveCountry selected_country triggered_id
  let cd := effectiveClick clickData triggered_id
  let reset_country_value : Option (Option String) :=
    if triggered_id = some Trigger.resetButton then some none else none
  let reset_distance_value : Option (Rat × Rat) :=
    if triggered_id = some Trigger.resetButton then some (minDistance ds, maxDistance ds)
    else none
  let fdf := filtered_df ds dr sc
  let fig1 := mkFig1 (top_elevation fdf)
  let hl := mkHighlight fdf cd triggered_id
  let outlier := fdf.filter (fun r => decide (r.elevation_gain > 14000))
  let fig2 := mkFig2 fdf hl outlier
  ⟨fig1, fig2, reset_country_value, reset_distance_value⟩

/-- Record "A" of the specification's test scenario. -/
def recA : Record := ⟨"A", 10, 500, "Usa", 3⟩

/-- Record "B" of the specification's test scenario. -/
def recB : Record := ⟨"B", 100, 15000, "France", 5⟩

/-- Record "C" of the specification's test scenario. -/
def recC : Record := ⟨"C", 50, 9000, "Usa", 2⟩

/-- Folding `min` over a list bounds every element of the list and the seed. -/
theorem foldr_min_le (xs : List Rat) (x : Rat) :
    ∀ y ∈ x :: xs, xs.foldr min x ≤ y := by
  induction xs generalizing x with
  | nil =>
      intro y hy
      rcases List.mem_cons.mp hy with rfl | hy'
      · exact le_refl _
      · cases hy'
  | cons a l ih =>
      intro y hy
      rcases List.mem_cons.mp hy with rfl | hy'
      · exact le_trans (min_le_right _ _) (ih y y (List.mem_cons_self _ _))
      · rcases List.mem_cons.mp hy' with rfl | hy''
        · exact min_le_left _ _
        · exact le_trans (min_le_right _ _) (ih x y (List.mem_cons.mpr (Or.inr hy'')))

/-- Folding `max` over a list dominates every element of the list and the seed. -/
theorem le_foldr_max (xs : List Rat) (x : Rat) :
    ∀ y ∈ x :: xs, y ≤ xs.foldr max x := by
  induction xs generalizing x with
  | nil =>
      intro y hy
      rcases List.mem_cons.mp hy with rfl | hy'
      · exact le_refl _
      · cases hy'
  | cons a l ih =>
      intro y hy
      rcases List.mem_cons.mp hy with rfl | hy'
      · exact le_trans (ih y y (List.mem_cons_self _ _)) (le_max_right _ _)
      · rcases List.mem_cons.mp hy' with rfl | hy''
        · exact le_max_left _ _
        · exact le_trans (ih x y (List.mem_cons.mpr (Or.inr hy''))) (le_max_right _ _)

/-- Every record's distance is at least the dataset minimum. -/
theorem minDistance_le {ds : List Record} {r : Record} (h : r ∈ ds) :
    minDistance ds ≤ r.distance := by
  have hm : r.distance ∈ ds.map (fun r => r.distance) := List.mem_map_of_mem _ h
  unfold minDistance
  cases hds : ds.map (fun r => r.distance) with
  | nil => rw [hds] at hm; cases hm
  | cons x xs =>
      rw [hds] at hm
      exact foldr_min_le xs x _ hm

/-- Every record's distance is at most the dataset maximum. -/
theorem le_maxDistance {ds : List Record} {r : Record} (h : r ∈ ds) :
    r.distance ≤ maxDistance ds := by
  have hm : r.distance ∈ ds.map (fun r => r.distance) := List.mem_map_of_mem _ h
  unfold maxDistance
  cases hds : ds.map (fun r => r.distance) with
  | nil => rw [hds] at hm; cases hm
  | cons x xs =>
      rw [hds] at hm
      exact le_foldr_max xs x _ hm

/-- Filtering with the full dataset span and no country keeps every record. -/
theorem filtered_df_full (ds : List Record) :
    filtered_df ds (minDistance ds, maxDistance ds) none = ds := by
  unfold filtered_df
  apply List.filter_eq_self.mpr
  intro r hr
  simp [minDistance_le hr, le_maxDistance hr]

/-- The pandas descending order (reverse of the stable ascending sort) is
sorted descending by elevation gain. -/
theorem sorted_desc_sorted (l : List Record) : List.Sorted elevGE (sorted_desc l) := by
  rw [sorted_desc, List.Sorted, List.pairwise_reverse]
  exact (List.sorted_insertionSort elevLE l).imp (fun hab => hab)

/-- Membership is preserved by the descending reorder. -/
theorem mem_sorted_desc {l : List Record} {r : Record} (h : r ∈ l) :
    r ∈ sorted_desc l := by
  rw [sorted_desc, List.mem_reverse]
  exact (List.mem_insertionSort elevLE).mpr h

/-- A head of a `take` is the head of the list itself. -/
theorem head?_take_eq {α : Type} {n : Nat} {l : List α} {a : α}
    (h : (l.take n).head? = some a) : l.head? = some a := by
  cases n with
  | zero => simp at h
  | succ m =>
      cases l with
      | nil => simp at h
      | cons x xs => simpa using h

/-! ### Claim theorems -/

/-- C2 counterexample: an invocation triggered by the country filter (not a
bar click, no new click) still applies the highlight, because the persisted
`clickData` is non-null and the code only excludes the reset trigger: the
points are not rendered uniformly. -/
theorem highlight_persists_counterexample :
    (update_graphs [recA, recB] (0, 200) none 0 (some "A")
        (some Trigger.countryFilter)).fig2.highlight ≠ none ∧
    renderStyle (update_graphs [recA, recB] (0, 200) none 0 (some "A")
        (some Trigger.countryFilter)).fig2 0 = selectedMarker ∧
    renderStyle (update_graphs [recA, recB] (0, 200) none 0 (some "A")
        (some Trigger.countryFilter)).fig2 1 = unselectedMarker :=
  ⟨by decide, rfl, rfl⟩

/-- C2 amended: the scatter highlight is applied exactly when the persisted
`clickData` is present and the trigger is not the reset button — regardless
of which input triggered the invocation. A later country-filter change keeps
the highlight; only reset clears it. -/
theorem highlight_condition (ds : List Record) (dr : Rat × Rat) (sc : Option String)
    (n : Nat) (cd : Option String) (t : Option Trigger) :
    (update_graphs ds dr sc n cd t).fig2.highlight =
      if t = some Trigger.resetButton then none
      else cd.map (fun c => ⟨selIdx (filtered_df ds dr sc) c⟩) := by
  by_cases ht : t = some Trigger.resetButton
  · simp [update_graphs, mkFig2, mkHighlight, effectiveClick, ht]
  · cases cd <;>
      simp [update_graphs, mkFig2, mkHighlight, effectiveClick, effectiveRange,
        effectiveCountry, ht]

/-- C3: a reset-triggered invocation overrides the distance range to the full
dataset span, clears the country and the click, returns the corresponding
control-value overrides, and its charts equal the unfiltered computation
(full dataset, no highlight). -/
theorem reset_restores_full_view (ds : List Record) (dr : Rat × Rat) (sc : Option String)
    (n : Nat) (cd : Option String) :
    (update_graphs ds dr sc n cd (some Trigger.resetButton)).reset_country_value = some none ∧
    (update_graphs ds dr sc n cd (some Trigger.resetButton)).reset_distance_value =
      some (minDistance ds, maxDistance ds) ∧
    (update_graphs ds dr sc n cd (some Trigger.resetButton)).fig1 =
      mkFig1 (top_elevation ds) ∧
    (update_graphs ds dr sc n cd (some Trigger.resetButton)).fig2 =
      mkFig2 ds none (ds.filter (fun r => decide (r.elevation_gain > 14000))) := by
  refine ⟨?_, ?_, ?_, ?_⟩ <;>
    simp [update_graphs, effectiveRange, effectiveCountry, effectiveClick,
      mkHighlight, filtered_df_full]

/-- C4: for a valid distance range [lo, hi] and any non-degenerate country
selection, every filtered record's distance lies in the closed interval and
matches the selected country, and `filtered_records` is exactly the
subsequence of the dataset satisfying these conditions. -/
theorem filtered_records_spec (ds : List Record) (lo hi : Rat) (sc : Option String)
    (hsc : sc ≠ some "") :
    (∀ r ∈ filtered_df ds (lo, hi) sc,
        lo ≤ r.distance ∧ r.distance ≤ hi ∧ ∀ c, sc = some c → r.country = c) ∧
    filtered_df ds (lo, hi) sc = ds.filter (fun r =>
        decide (lo ≤ r.distance) && decide (r.distance ≤ hi) &&
        (match sc with | some c => r.country == c | none => true)) := by
  cases sc with
  | none =>
      constructor
      · intro r hr
        simp only [filtered_df, List.mem_filter, Bool.and_eq_true, decide_eq_true_eq] at hr
        exact ⟨hr.2.1, hr.2.2, fun c hc => by cases hc⟩
      · simp [filtered_df]
  | some c =>
      have hc : c ≠ "" := fun h => hsc (by rw [h])
      have heq : filtered_df ds (lo, hi) (some c) =
          (ds.filter (fun r => decide (lo ≤ r.distance) && decide (r.distance ≤ hi))).filter
            (fun r => r.country == c) := by
        simp [filtered_df, hc]
      constructor
      · intro r hr
        rw [heq] at hr
        simp only [List.mem_filter, Bool.and_eq_true, decide_eq_true_eq, beq_iff_eq] at hr
        refine ⟨hr.1.2.1, hr.1.2.2, ?_⟩
        intro c' hc'
        injection hc' with h
        rw [← h]
        exact hr.2
      · rw [heq, List.filter_filter]
        apply List.filter_congr
        intro a _
        rw [Bool.and_comm]

/-- C4 witness at the specification's scenario: selecting "Usa" over the
three-record dataset. -/
theorem filtered_records_spec_witness :
    (some "Usa" : Option String) ≠ some "" ∧
    ∀ r ∈ filtered_df [recA, recB, recC] (0, 200) (some "Usa"),
      (0 : Rat) ≤ r.distance ∧ r.distance ≤ 200 ∧
      ∀ c, (some "Usa" : Option String) = some c → r.country = c :=
  ⟨by decide, (filtered_records_spec [recA, recB, recC] 0 200 (some "Usa") (by decide)).1⟩

/-- C5: the scatter chart carries exactly one fixed-text outlier annotation,
at the distance/elevation coordinates of the first filtered record with
elevation gain strictly above 14000, iff such a record exists; otherwise it
carries none. -/
theorem outlier_ann_spec (ds : List Record) (dr : Rat × Rat) (sc : Option String)
    (n : Nat) (cd : Option String) (t : Option Trigger) :
    (update_graphs ds dr sc n cd t).fig2.anns =
      (match (filtered_df ds (effectiveRange ds dr t) (effectiveCountry sc t)).filter
          (fun r => decide (r.elevation_gain > 14000)) with
       | [] => ([] : List ScatterAnn)
       | o :: _ => [⟨o.distance, o.elevation_gain, "Extreme Gain!"⟩]) ∧
    ((update_graphs ds dr sc n cd t).fig2.anns = [] ↔
      (filtered_df ds (effectiveRange ds dr t) (effectiveCountry sc t)).filter
        (fun r => decide (r.elevation_gain > 14000)) = []) := by
  refine ⟨rfl, ?_⟩
  cases h : (filtered_df ds (effectiveRange ds dr t) (effectiveCountry sc t)).filter
      (fun r => decide (r.elevation_gain > 14000)) with
  | nil => simp [update_graphs, mkFig2, h]
  | cons o rest => simp [update_graphs, mkFig2, h]

/-- C6: the bar chart carries exactly one fixed-text annotation, placed at the
first bar of `top_by_elevation` (whose elevation gain dominates every filtered
record), iff `top_by_elevation` is non-empty; otherwise it carries none. -/
theorem bar_ann_spec (ds : List Record) (dr : Rat × Rat) (sc : Option String)
    (n : Nat) (cd : Option String) (t : Option Trigger) :
    (update_graphs ds dr sc n cd t).fig1.anns =
      (match top_elevation (filtered_df ds (effectiveRange ds dr t) (effectiveCountry sc t)) with
       | [] => ([] : List BarAnn)
       | h :: _ => [⟨h.race, h.elevation_gain * (11/10), "⬆️ Highest Elevation"⟩]) ∧
    ∀ hd, (top_elevation (filtered_df ds (effectiveRange ds dr t)
        (effectiveCountry sc t))).head? = some hd →
      ∀ r ∈ filtered_df ds (effectiveRange ds dr t) (effectiveCountry sc t),
        r.elevation_gain ≤ hd.elevation_gain := by
  refine ⟨rfl, ?_⟩
  intro hd hh r hr
  have hh' : (sorted_desc (filtered_df ds (effectiveRange ds dr t)
      (effectiveCountry sc t))).head? = some hd := head?_take_eq hh
  have hsorted := sorted_desc_sorted (filtered_df ds (effectiveRange ds dr t)
      (effectiveCountry sc t))
  have hmem : r ∈ sorted_desc (filtered_df ds (effectiveRange ds dr t)
      (effectiveCountry sc t)) := mem_sorted_desc hr
  cases hs : sorted_desc (filtered_df ds (effectiveRange ds dr t)
      (effectiveCountry sc t)) with
  | nil =>
      rw [hs] at hh'
      cases hh'
  | cons h' rest =>
      rw [hs] at hh' hsorted hmem
      have hhd : h' = hd := by simpa using hh'
      subst hhd
      rcases List.mem_cons.mp hmem with rfl | hmem'
      · exact le_refl _
      · exact (List.sorted_cons.mp hsorted).1 r hmem'

/-- C6 witness at the specification's scenario: the top list is non-empty,
headed by record "B", the annotation points at "B", and "B" dominates. -/
theorem bar_ann_spec_witness :
    (update_graphs [recA, recB, recC] (0, 200) none 0 none
        (some Trigger.distanceFilter)).fig1.anns =
      [⟨"B", 15000 * (11/10), "⬆️ Highest Elevation"⟩] ∧
    recA.elevation_gain ≤ recB.elevation_gain := by
  have h := bar_ann_spec [recA, recB, recC] (0, 200) none 0 none (some Trigger.distanceFilter)
  exact ⟨h.1.trans (by rfl), h.2 recB (by decide) recA (by decide)⟩

/-- C7: the pipeline is deterministic: with identical filter state, no reset
trigger and no click payload, two invocations agree — even across different
reset-counter values and different (non-reset) triggers. -/
theorem pipeline_deterministic (ds : List Record) (dr : Rat × Rat) (sc : Option String)
    (n₁ n₂ : Nat) (t₁ t₂ : Option Trigger)
    (h₁ : t₁ ≠ some Trigger.resetButton) (h₂ : t₂ ≠ some Trigger.resetButton) :
    update_graphs ds dr sc n₁ none t₁ = update_graphs ds dr sc n₂ none t₂ := by
  simp [update_graphs, effectiveRange, effectiveCountry, effectiveClick, mkHighlight, h₁, h₂]

/-- C7 witness: two concrete non-reset invocations with distinct counters and
triggers return the same result. -/
theorem pipeline_deterministic_witness :
    (some Trigger.distanceFilter : Option Trigger) ≠ some Trigger.resetButton ∧
    (some Trigger.countryFilter : Option Trigger) ≠ some Trigger.resetButton ∧
    update_graphs [recA] (0, 200) none 0 none (some Trigger.distanceFilter) =
      update_graphs [recA] (0, 200) none 7 none (some Trigger.countryFilter) :=
  ⟨by decide, by decide,
   pipeline_deterministic [recA] (0, 200) none 0 7 (some Trigger.distanceFilter)
     (some Trigger.countryFilter) (by decide) (by decide)⟩

/-- C8: an invocation whose trigger is not the reset button returns
"no override" for both control-value outputs. -/
theorem no_override_unless_reset (ds : List Record) (dr : Rat × Rat) (sc : Option String)
    (n : Nat) (cd : Option String) (t : Option Trigger)
    (h : t ≠ some Trigger.resetButton) :
    (update_graphs ds dr sc n cd t).reset_country_value = none ∧
    (update_graphs ds dr sc n cd t).reset_distance_value = none := by
  constructor <;> simp [update_graphs, h]

/-- C8 witness: a concrete country-filter-triggered invocation overrides
neither control. -/
theorem no_override_unless_reset_witness :
    (some Trigger.countryFilter : Option Trigger) ≠ some Trigger.resetButton ∧
    (update_graphs [recA] (0, 200) none 3 none
        (some Trigger.countryFilter)).reset_country_value = none ∧
    (update_graphs [recA] (0, 200) none 3 none
        (some Trigger.countryFilter)).reset_distance_value = none :=
  ⟨by decide,
   no_override_unless_reset [recA] (0, 200) none 3 none (some Trigger.countryFilter) (by decide)⟩

/-- C9 counterexample: the empty string is a `selected_country` value absent
from the dataset's country column, yet Python truthiness
(`if selected_country:`) skips the country filter entirely, so the filtered
set is the full distance-filtered dataset and the scatter chart has data
points — not the empty charts the claim requires. -/
theorem unknown_country_counterexample :
    (∀ r ∈ [recA], r.country ≠ "") ∧
    filtered_df [recA] (0, 200) (some "") = [recA] ∧
    (update_graphs [recA] (0, 200) (some "") 0 none
        (some Trigger.countryFilter)).fig2.points ≠ [] := by
  decide

/-- C9 amended: selecting a non-empty country value absent from the dataset
degrades to an empty filtered set: both charts carry no data points and no
annotations, and nothing fails. (The empty string, absent or not, is falsy
in Python and skips the country filter instead.) -/
theorem unknown_country_empty (ds : List Record) (dr : Rat × Rat) (n : Nat)
    (cd : Option String) (t : Option Trigger) (c : String) (hc : c ≠ "")
    (habs : ∀ r ∈ ds, r.country ≠ c) (ht : t ≠ some Trigger.resetButton) :
    filtered_df ds dr (some c) = [] ∧
    (update_graphs ds dr (some c) n cd t).fig1.bars = [] ∧
    (update_graphs ds dr (some c) n cd t).fig1.anns = [] ∧
    (update_graphs ds dr (some c) n cd t).fig2.points = [] ∧
    (update_graphs ds dr (some c) n cd t).fig2.anns = [] := by
  have hempty : filtered_df ds dr (some c) = [] := by
    have hsplit : filtered_df ds dr (some c) =
        (ds.filter (fun r => decide (dr.1 ≤ r.distance) && decide (r.distance ≤ dr.2))).filter
          (fun r => r.country == c) := by
      simp [filtered_df, hc]
    rw [hsplit, List.filter_eq_nil_iff]
    intro r hr
    simpa using habs r (List.mem_filter.mp hr).1
  refine ⟨hempty, ?_, ?_, ?_, ?_⟩ <;>
    simp [update_graphs, effectiveRange, effectiveCountry, ht, hempty, mkFig1, mkFig2,
      top_elevation, sorted_desc, List.insertionSort]

/-- C9 witness: selecting "Atlantis", absent from the scenario dataset,
yields empty charts. -/
theorem unknown_country_empty_witness :
    ("Atlantis" : String) ≠ "" ∧
    (∀ r ∈ [recA, recB, recC], r.country ≠ "Atlantis") ∧
    (some Trigger.countryFilter : Option Trigger) ≠ some Trigger.resetButton ∧
    filtered_df [recA, recB, recC] (0, 200) (some "Atlantis") = [] ∧
    (update_graphs [recA, recB, recC] (0, 200) (some "Atlantis") 0 none
        (some Trigger.countryFilter)).fig2.points = [] :=
  ⟨by decide, by decide, by decide,
   (unknown_country_empty [recA, recB, recC] (0, 200) 0 none (some Trigger.countryFilter)
      "Atlantis" (by decide) (by decide) (by decide)).1,
   (unknown_country_empty [recA, recB, recC] (0, 200) 0 none (some Trigger.countryFilter)
      "Atlantis" (by decide) (by decide) (by decide)).2.2.2.1⟩

/-- C10: if the persisted click names a race absent from the current filtered
records, the selected-point set is empty and every scatter point is rendered
in the dimmed unselected style; nothing fails. -/
theorem stale_click_all_unselected (ds : List Record) (dr : Rat × Rat) (sc : Option String)
    (n : Nat) (c : String) (t : Option Trigger) (ht : t ≠ some Trigger.resetButton)
    (habs : ∀ r ∈ filtered_df ds dr sc, r.race ≠ c) :
    (update_graphs ds dr sc n (some c) t).fig2.highlight = some ⟨[]⟩ ∧
    ∀ i, i < (update_graphs ds dr sc n (some c) t).fig2.points.length →
      renderStyle (update_graphs ds dr sc n (some c) t).fig2 i = unselectedMarker := by
  have hsel : selIdx (filtered_df ds dr sc) c = [] := by
    unfold selIdx
    have hf : (((filtered_df ds dr sc).map (fun r => r.race)).enum).filter
        (fun p => p.2 == c) = [] := by
      rw [List.filter_eq_nil_iff]
      intro p hp
      have h2 : p.2 ∈ (filtered_df ds dr sc).map (fun r => r.race) :=
        List.snd_mem_of_mem_enumFrom hp
      obtain ⟨r, hr, hrace⟩ := List.mem_map.mp h2
      rw [← hrace]
      simpa using habs r hr
    rw [hf]
    rfl
  have hhl : (update_graphs ds dr sc n (some c) t).fig2.highlight = some ⟨[]⟩ := by
    simp [update_graphs, mkFig2, mkHighlight, effectiveClick, effectiveRange,
      effectiveCountry, ht, hsel]
  refine ⟨hhl, ?_⟩
  intro i hi
  simp [renderStyle, hhl]

/-- C10 witness: a persisted click on "Zzz", absent from the filtered records,
leaves an empty selected set and point 0 dimmed. -/
theorem stale_click_all_unselected_witness :
    (some Trigger.countryFilter : Option Trigger) ≠ some Trigger.resetButton ∧
    (∀ r ∈ filtered_df [recA, recB] (0, 200) none, r.race ≠ "Zzz") ∧
    (update_graphs [recA, recB] (0, 200) none 0 (some "Zzz")
        (some Trigger.countryFilter)).fig2.highlight = some ⟨[]⟩ ∧
    renderStyle (update_graphs [recA, recB] (0, 200) none 0 (some "Zzz")
        (some Trigger.countryFilter)).fig2 0 = unselectedMarker :=
  ⟨by decide, by decide,
   (stale_click_all_unselected [recA, recB] (0, 200) none 0 "Zzz"
      (some Trigger.countryFilter) (by decide) (by decide)).1,
   (stale_click_all_unselected [recA, recB] (0, 200) none 0 "Zzz"
      (some Trigger.countryFilter) (by decide) (by decide)).2 0 (by decide)⟩
